import Mathlib

/-!
Shallow embedding of `spz_converter.py` (the SPZ-to-glTF conversion wrapper).

The wrapper is pure orchestration: it checks prerequisites (Maven on the
PATH, `JAVA_HOME` set, a `java` executable under it, `mvn --version`
succeeding), validates the input file, creates the output directory, builds
a `mvn exec:java` command line and runs it with a timeout, reporting the
outcome.  All effects the code performs are modelled by an explicit
environment record `Env` (platform flag, PATH lookup, environment
variables, a flat filesystem, path resolution, and a subprocess runner),
and the functions are translated line by line from the Python source.
Console output (`print`) is modelled as a list of log lines, and each
`subprocess.run` call is recorded as an `Invocation` so that theorems can
speak about which external commands were launched, with which working
directory and timeout.
-/

namespace SPZ

/-- Flat model of the filesystem state: the set of paths that are
directories and the set of paths that are regular files.  Path structure
(parent/child relations) is not modelled; this is adequate here because the
only directory creation in the source uses `parents=True`, which removes
the missing-parent failure mode. -/
structure FS where
  dirs : List String
  files : List String
deriving DecidableEq

/-- Models Python `Path(p).exists()`: the path is a directory or a regular
file in the modelled filesystem. -/
def FS.pathExists (fs : FS) (p : String) : Bool :=
  fs.dirs.contains p || fs.files.contains p

/-- Models `Path(p).mkdir(parents=True, exist_ok=True)` (line 88 of the
source): a no-op if `p` is already a directory; raises `FileExistsError`
if a non-directory entry exists at `p`; otherwise creates the directory
(with `parents=True` intermediate directories are created as needed, so no
missing-parent error can occur; other failure modes such as permission
errors are not modelled).  An `Except.error` value is a raised exception. -/
def FS.mkdirParentsExistOk (fs : FS) (p : String) : Except String FS :=
  if fs.dirs.contains p then .ok fs
  else if fs.files.contains p then
    .error ("FileExistsError: [Errno 17] File exists: \x27" ++ p ++ "\x27")
  else .ok { fs with dirs := p :: fs.dirs }

/-- Outcome of a `subprocess.run(...)` call: normal completion with an exit
code and captured streams, or one of the exception classes the source
distinguishes (`subprocess.TimeoutExpired`, `FileNotFoundError`, any other
`Exception`), each carrying its rendered message. -/
inductive RunOutcome where
  | completed (returncode : Int) (stdout stderr : String)
  | timeoutExpired (msg : String)
  | fileNotFoundError (msg : String)
  | otherError (msg : String)
deriving DecidableEq

/-- Record of one `subprocess.run` call: the argument list, the working
directory passed as `cwd` (`none` when the Python call passes no `cwd`),
and the `timeout` argument in seconds. -/
structure Invocation where
  cmd : List String
  cwd : Option String
  timeoutSec : Nat
deriving DecidableEq

/-- The ambient environment the wrapper runs in: `os.name == "nt"`,
`shutil.which`, `os.environ.get`, whether tkinter imported successfully,
the filesystem, `Path.resolve`, and the behaviour of `subprocess.run`
(as a function of command, `cwd` and `timeout`). -/
structure Env where
  isWindows : Bool
  which : String → Bool
  getenv : String → Option String
  guiAvailable : Bool
  fs : FS
  resolve : String → String
  run : List String → Option String → Nat → RunOutcome

/-- Models `str(Path(d) / name)` for an ordinary directory path, as used at
lines 49 and 116-117 of the source. -/
def pathJoin (d name : String) : String := d ++ "/" ++ name

/-- Line 39 / line 91: `"mvn.cmd" if os.name == "nt" else "mvn"`. -/
def mvnCmdName (env : Env) : String :=
  if env.isWindows then "mvn.cmd" else "mvn"

/-- Line 49: `Path(java_home) / "bin" / ("java.exe" if os.name == "nt" else "java")`. -/
def javaExePath (env : Env) (java_home : String) : String :=
  pathJoin (pathJoin java_home "bin") (if env.isWindows then "java.exe" else "java")

/-- Python truthiness test `if not java_home:` on an optional string:
true when the variable is unset or set to the empty string. -/
def optStrIsFalsy : Option String → Bool
  | none => true
  | some s => s == ""

/-- Result of `check_prerequisites`: the `(success, error_message)` pair the
Python method returns, plus the list of subprocess invocations it performed
(instrumentation; the only candidate is the `mvn --version` probe). -/
structure CheckResult where
  ok : Bool
  msg : String
  invs : List Invocation
deriving DecidableEq

/-- The `mvn --version` probe invocation (lines 55-56): no `cwd`, timeout 30. -/
def versionInvocation (env : Env) : Invocation :=
  ⟨[mvnCmdName env, "--version"], none, 30⟩

/-- `SPZConverter.check_prerequisites` (lines 31-62), translated check by
check: Maven on the PATH, `JAVA_HOME` set and non-empty, the java
executable present under it, and `mvn --version` completing with exit code
0 within 30 seconds (any exception from that run is caught and reported as
`Maven test failed: ...`). -/
def check_prerequisites (env : Env) : CheckResult :=
  let mvn_cmd := mvnCmdName env
  if env.which mvn_cmd = false then
    ⟨false, "Maven not found in PATH. Please install Maven and add it to PATH.", []⟩
  else
    let java_home := env.getenv "JAVA_HOME"
    if optStrIsFalsy java_home then
      ⟨false, "JAVA_HOME environment variable is not set. Please set JAVA_HOME to your JDK installation.", []⟩
    else
      let java_exe := javaExePath env (java_home.getD "")
      if env.fs.pathExists java_exe = false then
        ⟨false, "Java executable not found at " ++ java_exe ++ ". Please check JAVA_HOME setting.", []⟩
      else
        match env.run [mvn_cmd, "--version"] none 30 with
        | .completed rc _ err =>
          if rc ≠ 0 then ⟨false, "Maven test failed: " ++ err, [versionInvocation env]⟩
          else ⟨true, "", [versionInvocation env]⟩
        | .timeoutExpired m => ⟨false, "Maven test failed: " ++ m, [versionInvocation env]⟩
        | .fileNotFoundError m => ⟨false, "Maven test failed: " ++ m, [versionInvocation env]⟩
        | .otherError m => ⟨false, "Maven test failed: " ++ m, [versionInvocation env]⟩

/-- The converter object: only `project_root` varies (`__init__`, line 27);
the other two attributes are the fixed strings below. -/
structure SPZConverter where
  project_root : String
deriving DecidableEq

/-- Line 28: `self.java_main_class`. -/
def java_main_class : String := "de.javagl.jspz.examples.SpzToTileset"

/-- Line 29: `self.maven_module`. -/
def maven_module : String := "jspz-main"

/-- Lines 91-104: the Maven command list built by `convert`, with both
paths resolved to absolute form (`Path(...).resolve()`, modelled by
`env.resolve`) and joined with the content file name into the single
`-Dexec.args` string. -/
def buildCmd (env : Env) (input_file output_dir content_filename : String) : List String :=
  [mvnCmdName env, "exec:java",
   "-Dexec.mainClass=" ++ java_main_class,
   "-Dexec.args=" ++ env.resolve input_file ++ " " ++ env.resolve output_dir
     ++ " " ++ content_filename,
   "-pl", maven_module,
   "-q"]

/-- Result of `convert`: `outcome` is `Except.ok b` when the method returns
the boolean `b`, and `Except.error e` when an exception `e` escapes it
uncaught; `log` is the sequence of `print`ed lines, `invs` the subprocess
invocations performed (including the one inside `check_prerequisites`),
and `fs` the filesystem afterwards. -/
structure ConvertResult where
  outcome : Except String Bool
  log : List String
  invs : List Invocation
  fs : FS

/-- Lines 106-136 of `convert`: everything from the `try:` block on, given
the filesystem `fs1` after the `mkdir` call and the invocations `invs0`
performed so far.  The two `print`s before the run, the four-way outcome
handling (`returncode == 0`, non-zero, `TimeoutExpired`,
`FileNotFoundError`; the final generic `except Exception` is the
`otherError` arm) are translated branch by branch. -/
def convertRun (env : Env) (cv : SPZConverter)
    (input_file output_dir content_filename : String)
    (invs0 : List Invocation) (fs1 : FS) : ConvertResult :=
  let cmd := buildCmd env input_file output_dir content_filename
  let pre := ["Converting " ++ input_file ++ " to " ++ output_dir ++ "...",
              "Running: " ++ String.intercalate " " cmd]
  let invs := invs0 ++ [⟨cmd, some cv.project_root, 300⟩]
  match env.run cmd (some cv.project_root) 300 with
  | .completed rc out err =>
    if rc = 0 then
      ⟨Except.ok true,
       pre ++ ["✓ Conversion completed successfully!",
               "  Output files:",
               "    - " ++ pathJoin output_dir "tileset.json",
               "    - " ++ pathJoin output_dir content_filename],
       invs, fs1⟩
    else
      ⟨Except.ok false,
       pre ++ ["✗ Conversion failed!", "Return code: " ++ toString rc]
           ++ (if out = "" then [] else ["Standard output: " ++ out])
           ++ (if err = "" then [] else ["Error output: " ++ err]),
       invs, fs1⟩
  | .timeoutExpired _ =>
      ⟨Except.ok false, pre ++ ["✗ Conversion timed out after 5 minutes"], invs, fs1⟩
  | .fileNotFoundError m =>
      ⟨Except.ok false, pre ++ ["✗ Command not found: " ++ m], invs, fs1⟩
  | .otherError m =>
      ⟨Except.ok false, pre ++ ["✗ Unexpected error: " ++ m], invs, fs1⟩

/-- `SPZConverter.convert` (lines 64-136): prerequisite check, input-file
existence check, `mkdir(parents=True, exist_ok=True)` on the output
directory (line 88 — NOT inside the `try:` block, so an exception it
raises escapes `convert`, modelled by `Except.error`), then the command
construction and run of `convertRun`. -/
def convert (env : Env) (cv : SPZConverter)
    (input_file output_dir content_filename : String) : ConvertResult :=
  let pr := check_prerequisites env
  if pr.ok = false then
    ⟨Except.ok false, ["✗ Prerequisites check failed: " ++ pr.msg], pr.invs, env.fs⟩
  else if env.fs.pathExists input_file = false then
    ⟨Except.ok false, ["✗ Input file \x27" ++ input_file ++ "\x27 does not exist"],
     pr.invs, env.fs⟩
  else
    match env.fs.mkdirParentsExistOk output_dir with
    | .error e => ⟨Except.error e, [], pr.invs, env.fs⟩
    | .ok fs1 => convertRun env cv input_file output_dir content_filename pr.invs fs1

/-! ## CLI entry point (`main`, lines 267-296) -/

/-- The parsed command-line arguments (`argparse` namespace, lines 269-277):
`--gui` flag, two optional positionals, `--content-name` defaulting to
`"content.glb"`, and `--project-root`. -/
structure Args where
  gui : Bool
  input_file : Option String
  output_dir : Option String
  content_name : String
  project_root : Option String
deriving DecidableEq

/-- The argparse defaults before any token is consumed. -/
def defaultArgs : Args :=
  ⟨false, none, none, "content.glb", none⟩

/-- Models the argparse pass over a well-formed token list: option flags
consume their value, every other token fills the next free positional.
Malformed command lines (unknown options, a value-taking flag at the end)
make real argparse print an error and exit the process; those are outside
this model. -/
def parseTokens : List String → Args → Args
  | [], a => a
  | "--gui" :: rest, a => parseTokens rest { a with gui := true }
  | "--content-name" :: v :: rest, a => parseTokens rest { a with content_name := v }
  | "--project-root" :: v :: rest, a => parseTokens rest { a with project_root := some v }
  | t :: rest, a =>
      parseTokens rest
        (if a.input_file = none then { a with input_file := some t }
         else if a.output_dir = none then { a with output_dir := some t }
         else a)

/-- Result of a `main` run: the process exit code (`Except.error e` when an
exception `e` escapes uncaught), the printed lines, the subprocess
invocations, the final filesystem, and whether the GUI was launched. -/
structure MainResult where
  exit : Except String Nat
  log : List String
  invs : List Invocation
  fs : FS
  guiLaunched : Bool

/-- `main` (lines 267-296): parse arguments; in `--gui` mode require
tkinter (else print an error and exit 1) and hand off to the GUI (whose
interactive behaviour is outside this model); in CLI mode print help and
exit 1 when a positional is missing, otherwise build the converter (with
`--project-root` or the script directory, line 27) and run `convert`,
exiting 0 on success and 1 on failure. -/
def main (env : Env) (script_dir : String) (argv : List String) : MainResult :=
  let args := parseTokens argv defaultArgs
  if args.gui then
    if env.guiAvailable = false then
      ⟨Except.ok 1, ["Error: GUI not available. Please install tkinter."], [], env.fs, false⟩
    else
      ⟨Except.ok 0, [], [], env.fs, true⟩
  else if args.input_file = none ∨ args.output_dir = none then
    ⟨Except.ok 1, ["<argparse help text>"], [], env.fs, false⟩
  else
    let cv : SPZConverter := ⟨args.project_root.getD script_dir⟩
    let r := convert env cv (args.input_file.getD "") (args.output_dir.getD "")
               args.content_name
    ⟨r.outcome.map (fun b => if b then 0 else 1), r.log, r.invs, r.fs, false⟩

/-! ## Concrete environments used as witnesses and counterexamples -/

/-- An environment where every prerequisite holds, the input file
`in.spz` exists, the output directory `out` already exists as a directory,
and every subprocess completes with exit code 0. -/
def envGood : Env where
  isWindows := false
  which := fun _ => true
  getenv := fun v => if v = "JAVA_HOME" then some "/jdk" else none
  guiAvailable := false
  fs := { dirs := ["out"], files := ["/jdk/bin/java", "in.spz"] }
  resolve := fun p => "/abs/" ++ p
  run := fun _ _ _ => .completed 0 "" ""

/-- Like `envGood`, but a regular file sits at the output-directory path
`out`, so the `mkdir` call raises `FileExistsError`. -/
def envOutIsFile : Env :=
  { envGood with fs := { dirs := [], files := ["/jdk/bin/java", "in.spz", "out"] } }

/-- Like `envGood`, but the main `exec:java` run exits with code 1 and
non-empty captured streams (the `mvn --version` probe still succeeds). -/
def envRunFails : Env :=
  { envGood with
    run := fun cmd _ _ =>
      if cmd.contains "--version" then .completed 0 "" ""
      else .completed 1 "build log" "boom" }

/-- Like `envGood`, but the main `exec:java` run times out. -/
def envRunTimesOut : Env :=
  { envGood with
    run := fun cmd _ _ =>
      if cmd.contains "--version" then .completed 0 "" ""
      else .timeoutExpired "Command timed out after 300 seconds" }

/-- Like `envGood`, but Maven is not on the PATH, `JAVA_HOME` is unset,
the java executable is absent and the version probe would fail: every
prerequisite is violated at once. -/
def envAllBroken : Env :=
  { envGood with
    which := fun _ => false
    getenv := fun _ => none
    fs := { dirs := [], files := [] }
    run := fun _ _ _ => .completed 1 "" "mvn broke" }

/-- Like `envGood`, but the input file `in.spz` does not exist. -/
def envNoInput : Env :=
  { envGood with fs := { dirs := ["out"], files := ["/jdk/bin/java"] } }

/-- Like `envGood`, but `JAVA_HOME` is unset (Maven is still on the PATH). -/
def envNoJavaHome : Env :=
  { envGood with getenv := fun _ => none }

/-- Like `envGood`, but no java executable exists under `JAVA_HOME`. -/
def envNoJavaExe : Env :=
  { envGood with fs := { dirs := ["out"], files := ["in.spz"] } }

/-- Like `envGood`, but `mvn --version` exits with code 1. -/
def envVersionFails : Env :=
  { envGood with run := fun _ _ _ => .completed 1 "" "mvn broke" }

/-- Whether the `mvn --version` probe counts as failed under the source's
handling (lines 54-60): non-zero exit code, or any raised exception. -/
def versionProbeFailed (env : Env) : Bool :=
  match env.run [mvnCmdName env, "--version"] none 30 with
  | .completed rc _ _ => rc != 0
  | .timeoutExpired _ => true
  | .fileNotFoundError _ => true
  | .otherError _ => true

/-- The text the source appends to `"Maven test failed: "` for a failed
probe: the captured stderr on non-zero exit, the exception message
otherwise. -/
def versionProbeMsg (env : Env) : String :=
  match env.run [mvnCmdName env, "--version"] none 30 with
  | .completed _ _ err => err
  | .timeoutExpired m => m
  | .fileNotFoundError m => m
  | .otherError m => m

/-! ## Helper lemmas -/

/-- `check_prerequisites` performs either no subprocess invocation (one of
the first three checks failed) or exactly the `mvn --version` probe. -/
theorem check_invs_shape (env : Env) :
    (check_prerequisites env).invs = [] ∨
    (check_prerequisites env).invs = [versionInvocation env] := by
  unfold check_prerequisites
  dsimp only
  split
  · exact Or.inl rfl
  · split
    · exact Or.inl rfl
    · split
      · exact Or.inl rfl
      · split
        · split
          · exact Or.inr rfl
          · exact Or.inr rfl
        · exact Or.inr rfl
        · exact Or.inr rfl
        · exact Or.inr rfl

/-- The string `"exec:java"` never appears in the `mvn --version` probe. -/
theorem execJava_not_in_version (env : Env) :
    ((versionInvocation env).cmd.contains "exec:java") = false := by
  unfold versionInvocation mvnCmdName
  split <;> decide

/-- Membership form of `execJava_not_in_version`. -/
theorem execJava_not_mem_version (env : Env) :
    ("exec:java" : String) ∉ (versionInvocation env).cmd := by
  unfold versionInvocation mvnCmdName
  split <;> decide

/-- Every branch of the post-check phase returns a boolean (the whole
region is inside the `try:` block and every exception class is handled). -/
theorem convertRun_outcome_ok (env : Env) (cv : SPZConverter)
    (i o c : String) (invs0 : List Invocation) (fs1 : FS) :
    ∃ b : Bool, (convertRun env cv i o c invs0 fs1).outcome = Except.ok b := by
  unfold convertRun
  dsimp only
  split
  · split
    · exact ⟨true, rfl⟩
    · exact ⟨false, rfl⟩
  · exact ⟨false, rfl⟩
  · exact ⟨false, rfl⟩
  · exact ⟨false, rfl⟩

/-- When the prerequisite check succeeds, the input exists and the `mkdir`
call returns normally, `convert` is exactly the post-check phase. -/
theorem convert_eq_convertRun (env : Env) (cv : SPZConverter) (i o c : String)
    (fs1 : FS)
    (hpr : (check_prerequisites env).ok = true)
    (hin : env.fs.pathExists i = true)
    (hmk : env.fs.mkdirParentsExistOk o = Except.ok fs1) :
    convert env cv i o c = convertRun env cv i o c (check_prerequisites env).invs fs1 := by
  unfold convert
  dsimp only
  rw [hpr, hin, hmk]
  rfl

/-- In every branch, the post-check phase appends exactly one invocation:
the built command, run with the converter's project root as `cwd` and a
300-second timeout. -/
theorem convertRun_invs (env : Env) (cv : SPZConverter)
    (i o c : String) (invs0 : List Invocation) (fs1 : FS) :
    (convertRun env cv i o c invs0 fs1).invs =
      invs0 ++ [⟨buildCmd env i o c, some cv.project_root, 300⟩] := by
  unfold convertRun
  dsimp only
  split
  · split <;> rfl
  · rfl
  · rfl
  · rfl

/-- In every branch, the post-check phase leaves the filesystem as the
`mkdir` call left it. -/
theorem convertRun_fs (env : Env) (cv : SPZConverter)
    (i o c : String) (invs0 : List Invocation) (fs1 : FS) :
    (convertRun env cv i o c invs0 fs1).fs = fs1 := by
  unfold convertRun
  dsimp only
  split
  · split <;> rfl
  · rfl
  · rfl
  · rfl

/-- Membership of the literal `"exec:java"` in the built command. -/
theorem execJava_mem_buildCmd (env : Env) (i o c : String) :
    ("exec:java" : String) ∈ buildCmd env i o c := by
  unfold buildCmd
  exact List.mem_cons_of_mem _ (List.mem_cons_self _ _)

/-- Under the three reached-the-run hypotheses, the main `exec:java`
command is among the recorded invocations. -/
theorem convert_main_invoked (env : Env) (cv : SPZConverter) (i o c : String)
    (fs1 : FS)
    (hpr : (check_prerequisites env).ok = true)
    (hin : env.fs.pathExists i = true)
    (hmk : env.fs.mkdirParentsExistOk o = Except.ok fs1) :
    ((convert env cv i o c).invs.any (fun inv => inv.cmd.contains "exec:java")) = true := by
  rw [convert_eq_convertRun env cv i o c fs1 hpr hin hmk, convertRun_invs]
  simp
  exact Or.inr (execJava_mem_buildCmd env i o c)

/-- Shape of a successful `mkdir(parents=True, exist_ok=True)`: the files
are untouched, the target is a directory afterwards, and every existing
directory is preserved. -/
theorem mkdir_ok_cases (fs : FS) (o : String) (fs1 : FS)
    (h : fs.mkdirParentsExistOk o = Except.ok fs1) :
    fs1.files = fs.files ∧ fs1.dirs.contains o = true ∧
    (∀ p, fs.dirs.contains p = true → fs1.dirs.contains p = true) := by
  unfold FS.mkdirParentsExistOk at h
  by_cases h1 : fs.dirs.contains o = true
  · rw [if_pos h1] at h
    cases h
    exact ⟨rfl, h1, fun p hp => hp⟩
  · rw [if_neg h1] at h
    by_cases h2 : fs.files.contains o = true
    · rw [if_pos h2] at h
      exact Except.noConfusion h
    · rw [if_neg h2] at h
      cases h
      refine ⟨rfl, by simp, fun p hp => ?_⟩
      have hp' : p ∈ fs.dirs := by simpa using hp
      simp [hp']

/-- `pathExists` is preserved when the files are unchanged and the
directories only grow. -/
theorem pathExists_mono (fs fs' : FS) (p : String)
    (hfiles : fs'.files = fs.files)
    (hdirs : ∀ q, fs.dirs.contains q = true → fs'.dirs.contains q = true)
    (h : fs.pathExists p = true) : fs'.pathExists p = true := by
  unfold FS.pathExists at *
  rw [hfiles]
  simp only [Bool.or_eq_true] at h ⊢
  rcases h with h | h
  · exact Or.inl (hdirs p h)
  · exact Or.inr h

/-- a successful prerequisite check means: Maven found, `JAVA_HOME`
non-falsy, java executable present, and the probe completed with exit 0. -/
theorem check_ok_elim (env : Env)
    (hok : (check_prerequisites env).ok = true) :
    env.which (mvnCmdName env) = true ∧
    optStrIsFalsy (env.getenv "JAVA_HOME") = false ∧
    env.fs.pathExists (javaExePath env ((env.getenv "JAVA_HOME").getD "")) = true ∧
    ∃ out err, env.run [mvnCmdName env, "--version"] none 30
      = RunOutcome.completed 0 out err := by
  cases hw : env.which (mvnCmdName env)
  · simp [check_prerequisites, hw] at hok
  · cases hf : optStrIsFalsy (env.getenv "JAVA_HOME")
    · cases hp : env.fs.pathExists (javaExePath env ((env.getenv "JAVA_HOME").getD ""))
      · simp [check_prerequisites, hw, hf, hp] at hok
      · rcases hr : env.run [mvnCmdName env, "--version"] none 30
            with ⟨rc, out, err⟩ | m | m | m <;>
          simp [check_prerequisites, hw, hf, hp, hr] at hok
        have hrc : rc = 0 := by
          by_cases h0 : rc = 0
          · exact h0
          · simp [h0] at hok
        subst hrc
        exact ⟨rfl, rfl, rfl, out, err, rfl⟩
    · simp [check_prerequisites, hw, hf] at hok

/-- Converse of `check_ok_elim`. -/
theorem check_ok_intro (env : Env)
    (hw : env.which (mvnCmdName env) = true)
    (hf : optStrIsFalsy (env.getenv "JAVA_HOME") = false)
    (hp : env.fs.pathExists (javaExePath env ((env.getenv "JAVA_HOME").getD "")) = true)
    (out err : String)
    (hr : env.run [mvnCmdName env, "--version"] none 30
      = RunOutcome.completed 0 out err) :
    (check_prerequisites env).ok = true := by
  simp [check_prerequisites, hw, hf, hp, hr]

/-- Success of the prerequisite check is stable under growing the
filesystem's directories (the files unchanged). -/
theorem check_ok_fs_mono (env : Env) (fs' : FS)
    (hfiles : fs'.files = env.fs.files)
    (hdirs : ∀ q, env.fs.dirs.contains q = true → fs'.dirs.contains q = true)
    (hok : (check_prerequisites env).ok = true) :
    (check_prerequisites { env with fs := fs' }).ok = true := by
  obtain ⟨hw, hf, hp, out, err, hr⟩ := check_ok_elim env hok
  have hp' : fs'.pathExists (javaExePath env ((env.getenv "JAVA_HOME").getD "")) = true :=
    pathExists_mono env.fs fs' _ hfiles hdirs hp
  exact check_ok_intro { env with fs := fs' } hw hf hp' out err hr

/-! ## Claims -/

/-- C1 fails as stated: an error during output-directory creation is NOT
caught.  With a regular file at the output-directory path, the `mkdir` at
line 88 — which sits outside the `try:` block — raises `FileExistsError`,
and `convert` does not return a boolean but propagates the exception. -/
theorem convert_total_counterexample :
    ¬ ∀ (env : Env) (cv : SPZConverter) (i o c : String),
        ∃ b : Bool, (convert env cv i o c).outcome = Except.ok b := by
  intro h
  obtain ⟨b, hb⟩ := h envOutIsFile ⟨"root"⟩ "in.spz" "out" "content.glb"
  rw [show (convert envOutIsFile ⟨"root"⟩ "in.spz" "out" "content.glb").outcome
      = Except.error "FileExistsError: [Errno 17] File exists: \x27out\x27" from rfl] at hb
  exact Except.noConfusion hb

/-- C1 (amended): every error during a conversion invocation is converted
into a returned boolean — for every outcome of the prerequisite checks,
the input-file existence check and the subprocess launch — EXCEPT an error
raised while creating the output directory, which propagates uncaught; so
`convert` terminates normally returning a boolean whenever the
directory-creation call returns normally (in particular whenever it is not
even reached). -/
theorem convert_returns_bool_of_mkdir_ok (env : Env) (cv : SPZConverter)
    (i o c : String)
    (h : ∃ fs1, env.fs.mkdirParentsExistOk o = Except.ok fs1) :
    ∃ b : Bool, (convert env cv i o c).outcome = Except.ok b := by
  obtain ⟨fs1, hmk⟩ := h
  unfold convert
  dsimp only
  split
  · exact ⟨false, rfl⟩
  · split
    · exact ⟨false, rfl⟩
    · rw [hmk]
      exact convertRun_outcome_ok env cv i o c (check_prerequisites env).invs fs1

/-- Witness for the amended C1 at a concrete, fully successful environment. -/
theorem convert_returns_bool_of_mkdir_ok_witness :
    ∃ b : Bool, (convert envGood ⟨"root"⟩ "in.spz" "out" "content.glb").outcome
      = Except.ok b :=
  convert_returns_bool_of_mkdir_ok envGood ⟨"root"⟩ "in.spz" "out" "content.glb"
    ⟨envGood.fs, rfl⟩

/-- C2: when the checks pass (on a non-Windows platform, where the build
tool is plain `mvn`), the external command `convert` launches is exactly
`[mvn, exec:java, -Dexec.mainClass=de.javagl.jspz.examples.SpzToTileset,
-Dexec.args=<resolved input> <resolved output> <content name> (one
combined space-separated string), -pl, jspz-main, -q]`, with both paths
resolved to absolute form before being embedded, executed with the
converter's project root as the working directory (and a 300-second
timeout). -/
theorem convert_command_exact (env : Env) (cv : SPZConverter) (i o c : String)
    (fs1 : FS)
    (hwin : env.isWindows = false)
    (hpr : (check_prerequisites env).ok = true)
    (hin : env.fs.pathExists i = true)
    (hmk : env.fs.mkdirParentsExistOk o = Except.ok fs1) :
    (convert env cv i o c).invs =
      (check_prerequisites env).invs ++
        [⟨["mvn", "exec:java",
           "-Dexec.mainClass=de.javagl.jspz.examples.SpzToTileset",
           "-Dexec.args=" ++ env.resolve i ++ " " ++ env.resolve o ++ " " ++ c,
           "-pl", "jspz-main", "-q"], some cv.project_root, 300⟩] := by
  rw [convert_eq_convertRun env cv i o c fs1 hpr hin hmk, convertRun_invs]
  simp [buildCmd, mvnCmdName, java_main_class, maven_module, hwin]

/-- Witness for C2 at a concrete environment: the literal command line. -/
theorem convert_command_exact_witness :
    (convert envGood ⟨"root"⟩ "in.spz" "out" "content.glb").invs =
      (check_prerequisites envGood).invs ++
        [⟨["mvn", "exec:java",
           "-Dexec.mainClass=de.javagl.jspz.examples.SpzToTileset",
           "-Dexec.args=" ++ envGood.resolve "in.spz" ++ " " ++ envGood.resolve "out"
             ++ " " ++ "content.glb",
           "-pl", "jspz-main", "-q"], some "root", 300⟩] :=
  convert_command_exact envGood ⟨"root"⟩ "in.spz" "out" "content.glb" envGood.fs
    rfl rfl rfl rfl

/-- C3: if prerequisites pass, the input file exists (and the output
directory is created normally), and the launched command completes within
the timeout with exit status 0, then `convert` returns `true` and its
report includes both expected artifact paths: `tileset.json` and the given
content file name, under the output directory. -/
theorem convert_success_reports_outputs (env : Env) (cv : SPZConverter)
    (i o c out err : String) (fs1 : FS)
    (hpr : (check_prerequisites env).ok = true)
    (hin : env.fs.pathExists i = true)
    (hmk : env.fs.mkdirParentsExistOk o = Except.ok fs1)
    (hrun : env.run (buildCmd env i o c) (some cv.project_root) 300
      = .completed 0 out err) :
    (convert env cv i o c).outcome = Except.ok true ∧
    ("    - " ++ pathJoin o "tileset.json") ∈ (convert env cv i o c).log ∧
    ("    - " ++ pathJoin o c) ∈ (convert env cv i o c).log := by
  rw [convert_eq_convertRun env cv i o c fs1 hpr hin hmk]
  unfold convertRun
  dsimp only
  rw [hrun]
  simp

/-- Witness for C3 at a concrete successful environment. -/
theorem convert_success_reports_outputs_witness :
    (convert envGood ⟨"root"⟩ "in.spz" "out" "content.glb").outcome = Except.ok true ∧
    ("    - " ++ pathJoin "out" "tileset.json")
      ∈ (convert envGood ⟨"root"⟩ "in.spz" "out" "content.glb").log ∧
    ("    - " ++ pathJoin "out" "content.glb")
      ∈ (convert envGood ⟨"root"⟩ "in.spz" "out" "content.glb").log :=
  convert_success_reports_outputs envGood ⟨"root"⟩ "in.spz" "out" "content.glb" "" ""
    envGood.fs rfl rfl rfl rfl

/-- C4: for each missing-prerequisite scenario — Maven absent from the
PATH, `JAVA_HOME` unset (or empty), the java executable absent at the
expected subpath, or the `mvn --version` self-test failing —
`check_prerequisites` returns failure with the message identifying that
specific check; and whenever the prerequisite check fails, `convert`
returns `false` with no invocation whose command mentions `exec:java`
(the main conversion command is never constructed or launched). -/
theorem prereq_failure_blocks_main_command (env : Env) (cv : SPZConverter)
    (i o c : String) :
    (env.which (mvnCmdName env) = false →
       check_prerequisites env =
         ⟨false, "Maven not found in PATH. Please install Maven and add it to PATH.", []⟩) ∧
    (env.which (mvnCmdName env) = true →
       optStrIsFalsy (env.getenv "JAVA_HOME") = true →
       check_prerequisites env =
         ⟨false, "JAVA_HOME environment variable is not set. Please set JAVA_HOME to your JDK installation.", []⟩) ∧
    (env.which (mvnCmdName env) = true →
       optStrIsFalsy (env.getenv "JAVA_HOME") = false →
       env.fs.pathExists (javaExePath env ((env.getenv "JAVA_HOME").getD "")) = false →
       check_prerequisites env =
         ⟨false, "Java executable not found at "
            ++ javaExePath env ((env.getenv "JAVA_HOME").getD "")
            ++ ". Please check JAVA_HOME setting.", []⟩) ∧
    (env.which (mvnCmdName env) = true →
       optStrIsFalsy (env.getenv "JAVA_HOME") = false →
       env.fs.pathExists (javaExePath env ((env.getenv "JAVA_HOME").getD "")) = true →
       versionProbeFailed env = true →
       check_prerequisites env =
         ⟨false, "Maven test failed: " ++ versionProbeMsg env, [versionInvocation env]⟩) ∧
    ((check_prerequisites env).ok = false →
       (convert env cv i o c).outcome = Except.ok false ∧
       ((convert env cv i o c).invs.all
          (fun inv => !(inv.cmd.contains "exec:java"))) = true) := by
  refine ⟨?_, ?_, ?_, ?_, ?_⟩
  · intro h1
    simp [check_prerequisites, h1]
  · intro h1 h2
    simp [check_prerequisites, h1, h2]
  · intro h1 h2 h3
    simp [check_prerequisites, h1, h2, h3]
  · intro h1 h2 h3 h4
    unfold versionProbeFailed at h4
    rcases hr : env.run [mvnCmdName env, "--version"] none 30 with ⟨rc, out, err⟩ | m | m | m <;>
      rw [hr] at h4
    · have hrc : rc ≠ 0 := by simpa using h4
      simp [check_prerequisites, versionProbeMsg, h1, h2, h3, hr, hrc]
    · simp [check_prerequisites, versionProbeMsg, h1, h2, h3, hr]
    · simp [check_prerequisites, versionProbeMsg, h1, h2, h3, hr]
    · simp [check_prerequisites, versionProbeMsg, h1, h2, h3, hr]
  · intro h5
    have hc : convert env cv i o c =
        ⟨Except.ok false, ["✗ Prerequisites check failed: " ++ (check_prerequisites env).msg],
         (check_prerequisites env).invs, env.fs⟩ := by
      unfold convert
      dsimp only
      rw [h5]
      rfl
    rw [hc]
    refine ⟨rfl, ?_⟩
    rcases check_invs_shape env with h | h <;>
      simp [h, execJava_not_mem_version]

/-- Witness for C4: the four failing scenarios at concrete environments,
and the blocked conversion at the fully broken one. -/
theorem prereq_failure_blocks_main_command_witness :
    check_prerequisites envAllBroken =
      ⟨false, "Maven not found in PATH. Please install Maven and add it to PATH.", []⟩ ∧
    check_prerequisites envNoJavaHome =
      ⟨false, "JAVA_HOME environment variable is not set. Please set JAVA_HOME to your JDK installation.", []⟩ ∧
    check_prerequisites envNoJavaExe =
      ⟨false, "Java executable not found at /jdk/bin/java. Please check JAVA_HOME setting.", []⟩ ∧
    check_prerequisites envVersionFails =
      ⟨false, "Maven test failed: mvn broke", [versionInvocation envVersionFails]⟩ ∧
    (convert envAllBroken ⟨"root"⟩ "in.spz" "out" "content.glb").outcome = Except.ok false ∧
    ((convert envAllBroken ⟨"root"⟩ "in.spz" "out" "content.glb").invs.all
       (fun inv => !(inv.cmd.contains "exec:java"))) = true := by
  refine ⟨(prereq_failure_blocks_main_command envAllBroken ⟨"root"⟩ "in.spz" "out"
            "content.glb").1 rfl,
          (prereq_failure_blocks_main_command envNoJavaHome ⟨"root"⟩ "in.spz" "out"
            "content.glb").2.1 rfl rfl,
          (prereq_failure_blocks_main_command envNoJavaExe ⟨"root"⟩ "in.spz" "out"
            "content.glb").2.2.1 rfl rfl rfl,
          (prereq_failure_blocks_main_command envVersionFails ⟨"root"⟩ "in.spz" "out"
            "content.glb").2.2.2.1 rfl rfl rfl rfl,
          ?_, ?_⟩
  · exact ((prereq_failure_blocks_main_command envAllBroken ⟨"root"⟩ "in.spz" "out"
      "content.glb").2.2.2.2 rfl).1
  · exact ((prereq_failure_blocks_main_command envAllBroken ⟨"root"⟩ "in.spz" "out"
      "content.glb").2.2.2.2 rfl).2

/-- Diagnostics of the four prerequisite checks evaluated independently of
one another, listed in the stated order (build tool on the search path;
`JAVA_HOME` set and non-empty; java executable present under it; version
probe succeeding).  Later checks' inputs default as in the code when an
earlier value is missing.  Used to express that `check_prerequisites`
returns exactly the FIRST failing check's diagnostic. -/
def specCheckDiagnostics (env : Env) : List String :=
  (if env.which (mvnCmdName env) = false then
     ["Maven not found in PATH. Please install Maven and add it to PATH."] else []) ++
  (if optStrIsFalsy (env.getenv "JAVA_HOME") then
     ["JAVA_HOME environment variable is not set. Please set JAVA_HOME to your JDK installation."]
   else []) ++
  (if env.fs.pathExists (javaExePath env ((env.getenv "JAVA_HOME").getD "")) = false then
     ["Java executable not found at " ++ javaExePath env ((env.getenv "JAVA_HOME").getD "")
        ++ ". Please check JAVA_HOME setting."] else []) ++
  (if versionProbeFailed env then ["Maven test failed: " ++ versionProbeMsg env] else [])

/-- Whether the first three (non-subprocess) checks all pass. -/
def firstThreePass (env : Env) : Bool :=
  env.which (mvnCmdName env) && !optStrIsFalsy (env.getenv "JAVA_HOME")
    && env.fs.pathExists (javaExePath env ((env.getenv "JAVA_HOME").getD ""))

/-- C5: `check_prerequisites` succeeds exactly when none of the four
ordered checks fails; its diagnostic is that of the FIRST failing check,
even when several conditions are violated at once; the version-probe
subprocess is launched only when the three preceding checks pass
(any earlier failure short-circuits it), and that probe is bounded by a
30-second timeout. -/
theorem check_prerequisites_first_failure (env : Env) :
    (check_prerequisites env).ok = (specCheckDiagnostics env).isEmpty ∧
    (check_prerequisites env).msg = (specCheckDiagnostics env).headD "" ∧
    (check_prerequisites env).invs =
      (if firstThreePass env then [versionInvocation env] else []) ∧
    (versionInvocation env).timeoutSec = 30 := by
  unfold check_prerequisites specCheckDiagnostics firstThreePass versionProbeFailed
    versionProbeMsg
  dsimp only
  cases hw : env.which (mvnCmdName env) <;>
    cases hf : optStrIsFalsy (env.getenv "JAVA_HOME") <;>
      cases hp : env.fs.pathExists (javaExePath env ((env.getenv "JAVA_HOME").getD "")) <;>
        rcases hr : env.run [mvnCmdName env, "--version"] none 30
          with ⟨rc, out, err⟩ | m | m | m <;>
          simp [hw, hf, hp, hr, versionInvocation] <;>
          by_cases hrc : rc = 0 <;>
            simp [hrc]

/-- C6: when prerequisites pass but the input file does not exist,
`convert` returns `false` and no invocation it performed mentions
`exec:java` — the external conversion process is never launched. -/
theorem convert_missing_input (env : Env) (cv : SPZConverter) (i o c : String)
    (hpr : (check_prerequisites env).ok = true)
    (hin : env.fs.pathExists i = false) :
    (convert env cv i o c).outcome = Except.ok false ∧
    ((convert env cv i o c).invs.all
       (fun inv => !(inv.cmd.contains "exec:java"))) = true := by
  have hc : convert env cv i o c =
      ⟨Except.ok false, ["✗ Input file \x27" ++ i ++ "\x27 does not exist"],
       (check_prerequisites env).invs, env.fs⟩ := by
    unfold convert
    dsimp only
    rw [hpr, hin]
    rfl
  rw [hc]
  refine ⟨rfl, ?_⟩
  rcases check_invs_shape env with h | h <;>
    simp [h, execJava_not_mem_version]

/-- Witness for C6 at a concrete environment whose input file is absent. -/
theorem convert_missing_input_witness :
    (convert envNoInput ⟨"root"⟩ "in.spz" "out" "content.glb").outcome
      = Except.ok false ∧
    ((convert envNoInput ⟨"root"⟩ "in.spz" "out" "content.glb").invs.all
       (fun inv => !(inv.cmd.contains "exec:java"))) = true :=
  convert_missing_input envNoInput ⟨"root"⟩ "in.spz" "out" "content.glb" rfl rfl

/-- C7: before invoking the external command, `convert` ensures the output
directory exists.  If the output directory already exists, the
`mkdir(parents=True, exist_ok=True)` step does not fail: `convert` still
returns a boolean, leaves the filesystem unchanged and launches the main
command.  And after any invocation whose `mkdir` returned normally, the
output directory exists, so a re-invocation on the resulting filesystem
does not fail on that account: it again returns a boolean and again
launches the main command. -/
theorem mkdir_before_invocation (env : Env) (cv : SPZConverter) (i o c : String)
    (hpr : (check_prerequisites env).ok = true)
    (hin : env.fs.pathExists i = true) :
    (env.fs.dirs.contains o = true →
       (convert env cv i o c).fs = env.fs ∧
       (∃ b : Bool, (convert env cv i o c).outcome = Except.ok b) ∧
       ((convert env cv i o c).invs.any
          (fun inv => inv.cmd.contains "exec:java")) = true) ∧
    (∀ fs1, env.fs.mkdirParentsExistOk o = Except.ok fs1 →
       (convert env cv i o c).fs.dirs.contains o = true ∧
       (∃ b : Bool,
          (convert { env with fs := (convert env cv i o c).fs } cv i o c).outcome
            = Except.ok b) ∧
       ((convert { env with fs := (convert env cv i o c).fs } cv i o c).invs.any
          (fun inv => inv.cmd.contains "exec:java")) = true) := by
  constructor
  · intro hdir
    have hmk : env.fs.mkdirParentsExistOk o = Except.ok env.fs := by
      unfold FS.mkdirParentsExistOk
      rw [if_pos hdir]
    refine ⟨?_, ?_, convert_main_invoked env cv i o c env.fs hpr hin hmk⟩
    · rw [convert_eq_convertRun env cv i o c env.fs hpr hin hmk, convertRun_fs]
    · rw [convert_eq_convertRun env cv i o c env.fs hpr hin hmk]
      exact convertRun_outcome_ok env cv i o c (check_prerequisites env).invs env.fs
  · intro fs1 hmk
    obtain ⟨hfiles, hco, hmono⟩ := mkdir_ok_cases env.fs o fs1 hmk
    have hfs : (convert env cv i o c).fs = fs1 := by
      rw [convert_eq_convertRun env cv i o c fs1 hpr hin hmk, convertRun_fs]
    rw [hfs]
    have hpr2 : (check_prerequisites { env with fs := fs1 }).ok = true :=
      check_ok_fs_mono env fs1 hfiles hmono hpr
    have hin2 : fs1.pathExists i = true :=
      pathExists_mono env.fs fs1 i hfiles hmono hin
    have hmk2 : fs1.mkdirParentsExistOk o = Except.ok fs1 := by
      unfold FS.mkdirParentsExistOk
      rw [if_pos hco]
    refine ⟨hco, ?_, ?_⟩
    · rw [convert_eq_convertRun { env with fs := fs1 } cv i o c fs1 hpr2 hin2 hmk2]
      exact convertRun_outcome_ok _ cv i o c _ fs1
    · exact convert_main_invoked { env with fs := fs1 } cv i o c fs1 hpr2 hin2 hmk2

/-- Witness for C7 at a concrete environment whose output directory
already exists, re-invoked on the filesystem the first call produced. -/
theorem mkdir_before_invocation_witness :
    (convert envGood ⟨"root"⟩ "in.spz" "out" "content.glb").fs = envGood.fs ∧
    ((convert { envGood with fs := (convert envGood ⟨"root"⟩ "in.spz" "out" "content.glb").fs }
        ⟨"root"⟩ "in.spz" "out" "content.glb").invs.any
       (fun inv => inv.cmd.contains "exec:java")) = true := by
  refine ⟨((mkdir_before_invocation envGood ⟨"root"⟩ "in.spz" "out" "content.glb"
    rfl rfl).1 rfl).1, ?_⟩
  exact ((mkdir_before_invocation envGood ⟨"root"⟩ "in.spz" "out" "content.glb"
    rfl rfl).2 envGood.fs rfl).2.2

/-- C8: on a non-zero exit status, `convert` returns `false` and its
diagnostic includes the exit code and both captured streams — the
stdout and stderr lines are printed exactly when the respective capture is
non-empty, in particular the captured error output. -/
theorem convert_nonzero_exit_reports (env : Env) (cv : SPZConverter)
    (i o c out err : String) (rc : Int) (fs1 : FS)
    (hpr : (check_prerequisites env).ok = true)
    (hin : env.fs.pathExists i = true)
    (hmk : env.fs.mkdirParentsExistOk o = Except.ok fs1)
    (hrc : rc ≠ 0)
    (hrun : env.run (buildCmd env i o c) (some cv.project_root) 300
      = .completed rc out err) :
    (convert env cv i o c).outcome = Except.ok false ∧
    ("Return code: " ++ toString rc) ∈ (convert env cv i o c).log ∧
    (out ≠ "" → ("Standard output: " ++ out) ∈ (convert env cv i o c).log) ∧
    (err ≠ "" → ("Error output: " ++ err) ∈ (convert env cv i o c).log) := by
  rw [convert_eq_convertRun env cv i o c fs1 hpr hin hmk]
  unfold convertRun
  dsimp only
  rw [hrun]
  dsimp only
  rw [if_neg hrc]
  refine ⟨rfl, by simp, ?_, ?_⟩
  · intro hout
    simp [hout]
  · intro herr
    simp [herr]

/-- Witness for C8 at a concrete environment whose main command exits 1
with captured streams `"build log"` / `"boom"`. -/
theorem convert_nonzero_exit_reports_witness :
    (convert envRunFails ⟨"root"⟩ "in.spz" "out" "content.glb").outcome
      = Except.ok false ∧
    ("Return code: " ++ toString (1 : Int))
      ∈ (convert envRunFails ⟨"root"⟩ "in.spz" "out" "content.glb").log ∧
    ("Standard output: build log"
      ∈ (convert envRunFails ⟨"root"⟩ "in.spz" "out" "content.glb").log) ∧
    ("Error output: boom"
      ∈ (convert envRunFails ⟨"root"⟩ "in.spz" "out" "content.glb").log) := by
  have h := convert_nonzero_exit_reports envRunFails ⟨"root"⟩ "in.spz" "out" "content.glb"
    "build log" "boom" 1 envRunFails.fs rfl rfl rfl (by decide) rfl
  exact ⟨h.1, h.2.1, h.2.2.1 (by decide), h.2.2.2 (by decide)⟩

/-- The timeout diagnostic is not a launch-failure diagnostic, whatever
the exception message. -/
theorem timeout_line_ne_notfound (s : String) :
    ("✗ Conversion timed out after 5 minutes" : String)
      ≠ "✗ Command not found: " ++ s := by
  intro h
  have hd := congrArg String.data h
  rw [String.data_append] at hd
  have h4 := congrArg (fun t : List Char => t[4]?) hd
  dsimp only at h4
  rw [List.getElem?_append_left (by decide)] at h4
  exact absurd h4 (by decide)

/-- C9: when the launched command does not return within the 300-second
timeout, `convert` returns `false`; the diagnostic is exactly the
timeout-specific line, which is distinct from the non-zero-exit
diagnostic (`✗ Conversion failed!`) and from every launch-failure
diagnostic (`✗ Command not found: ...`); and the invocation that timed
out was indeed bounded by 300 seconds. -/
theorem convert_timeout_reports (env : Env) (cv : SPZConverter)
    (i o c m : String) (fs1 : FS)
    (hpr : (check_prerequisites env).ok = true)
    (hin : env.fs.pathExists i = true)
    (hmk : env.fs.mkdirParentsExistOk o = Except.ok fs1)
    (hrun : env.run (buildCmd env i o c) (some cv.project_root) 300
      = .timeoutExpired m) :
    (convert env cv i o c).outcome = Except.ok false ∧
    (convert env cv i o c).log =
      ["Converting " ++ i ++ " to " ++ o ++ "...",
       "Running: " ++ String.intercalate " " (buildCmd env i o c),
       "✗ Conversion timed out after 5 minutes"] ∧
    (convert env cv i o c).invs =
      (check_prerequisites env).invs
        ++ [⟨buildCmd env i o c, some cv.project_root, 300⟩] ∧
    ("✗ Conversion timed out after 5 minutes" : String) ≠ "✗ Conversion failed!" ∧
    (∀ s : String, ("✗ Conversion timed out after 5 minutes" : String)
       ≠ "✗ Command not found: " ++ s) := by
  rw [convert_eq_convertRun env cv i o c fs1 hpr hin hmk]
  refine ⟨?_, ?_, convertRun_invs env cv i o c _ fs1, by decide, timeout_line_ne_notfound⟩ <;>
  · unfold convertRun
    dsimp only
    rw [hrun]
    try rfl

/-- Witness for C9 at a concrete environment whose main command times out. -/
theorem convert_timeout_reports_witness :
    (convert envRunTimesOut ⟨"root"⟩ "in.spz" "out" "content.glb").outcome
      = Except.ok false ∧
    (convert envRunTimesOut ⟨"root"⟩ "in.spz" "out" "content.glb").log =
      ["Converting in.spz to out...",
       "Running: " ++ String.intercalate " "
         (buildCmd envRunTimesOut "in.spz" "out" "content.glb"),
       "✗ Conversion timed out after 5 minutes"] ∧
    (convert envRunTimesOut ⟨"root"⟩ "in.spz" "out" "content.glb").invs =
      (check_prerequisites envRunTimesOut).invs
        ++ [⟨buildCmd envRunTimesOut "in.spz" "out" "content.glb", some "root", 300⟩] := by
  have h := convert_timeout_reports envRunTimesOut ⟨"root"⟩ "in.spz" "out" "content.glb"
    "Command timed out after 300 seconds" envRunTimesOut.fs rfl rfl rfl rfl
  exact ⟨h.1, h.2.1, h.2.2.1⟩

/-- C10: in CLI mode, omitting the content-file-name argument (two
positional arguments only) makes the default `content.glb` flow end to
end: the parsed arguments carry it, it is the content name `convert`
receives — embedded as the last word of the launched command's combined
`-Dexec.args` string, since the recorded invocation is the one built with
`content.glb` — and it names the reported content output path. -/
theorem cli_default_content_name (env : Env) (script_dir i o : String)
    (hi1 : i ≠ "--gui") (hi2 : i ≠ "--content-name") (hi3 : i ≠ "--project-root")
    (ho1 : o ≠ "--gui") (ho2 : o ≠ "--content-name") (ho3 : o ≠ "--project-root")
    (fs1 : FS)
    (hpr : (check_prerequisites env).ok = true)
    (hin : env.fs.pathExists i = true)
    (hmk : env.fs.mkdirParentsExistOk o = Except.ok fs1)
    (out err : String)
    (hrun : env.run (buildCmd env i o "content.glb") (some script_dir) 300
      = .completed 0 out err) :
    (parseTokens [i, o] defaultArgs).content_name = "content.glb" ∧
    (main env script_dir [i, o]).exit = Except.ok 0 ∧
    (main env script_dir [i, o]).invs =
      (check_prerequisites env).invs
        ++ [⟨buildCmd env i o "content.glb", some script_dir, 300⟩] ∧
    ("    - " ++ pathJoin o "content.glb") ∈ (main env script_dir [i, o]).log := by
  have hargs : parseTokens [i, o] defaultArgs =
      { gui := false, input_file := some i, output_dir := some o,
        content_name := "content.glb", project_root := none } := by
    simp [parseTokens, defaultArgs, hi1, hi2, hi3, ho1, ho2, ho3]
  have hconv := convert_eq_convertRun env ⟨script_dir⟩ i o "content.glb" fs1 hpr hin hmk
  have hmain : main env script_dir [i, o] =
      ⟨(convert env ⟨script_dir⟩ i o "content.glb").outcome.map
         (fun b => if b then 0 else 1),
       (convert env ⟨script_dir⟩ i o "content.glb").log,
       (convert env ⟨script_dir⟩ i o "content.glb").invs,
       (convert env ⟨script_dir⟩ i o "content.glb").fs, false⟩ := by
    unfold main
    rw [hargs]
    simp
  refine ⟨by rw [hargs], ?_, ?_, ?_⟩
  · rw [hmain]
    dsimp only
    rw [hconv]
    unfold convertRun
    dsimp only
    rw [hrun]
    rfl
  · rw [hmain]
    dsimp only
    rw [hconv, convertRun_invs]
  · rw [hmain]
    dsimp only
    rw [hconv]
    unfold convertRun
    dsimp only
    rw [hrun]
    simp

/-- Witness for C10 at a concrete environment, with argv
`["in.spz", "out"]`. -/
theorem cli_default_content_name_witness :
    (parseTokens ["in.spz", "out"] defaultArgs).content_name = "content.glb" ∧
    (main envGood "root" ["in.spz", "out"]).exit = Except.ok 0 ∧
    ("    - " ++ pathJoin "out" "content.glb")
      ∈ (main envGood "root" ["in.spz", "out"]).log := by
  have h := cli_default_content_name envGood "root" "in.spz" "out"
    (by decide) (by decide) (by decide) (by decide) (by decide) (by decide)
    envGood.fs rfl rfl rfl "" "" rfl
  exact ⟨h.1, h.2.1, h.2.2.2⟩

end SPZ

